import Mathlib

/-!
Shallow embedding of the PantryPal client's data-synchronization layer:
the item filter (`applyFilters` in `client/src/pages/home.tsx`), the four
mutation handlers of the home page, the items load, and the API request
wrapper (`ApiService.request` / `getItems` in `client/src/lib/api.ts`).
All definitions are translated from the TypeScript source; enum-like
string-union fields are modelled as `String` (that is their runtime
representation, and the handlers compare them with `===`).
-/

namespace PantryPal

/-- An inventory item, as in the `InventoryItem` interface of
`home.tsx` / `api-config.ts`.  `category`, `status` and `frequency` are
string unions in TypeScript, hence `String` here; `price` is a number,
irrelevant to every claim, modelled as `Int`. -/
structure InventoryItem where
  id : String
  name : String
  category : String
  status : String
  frequency : String
  price : Option Int := none
  note : Option String := none
  needBy : Option String := none
  createdAt : String := ""
  updatedAt : String := ""
  deriving DecidableEq, Repr

/-- The four pieces of filter state held by the home page:
`searchQuery`, `statusFilter`, `categoryFilter`, `frequencyFilter`. -/
structure FilterState where
  searchQuery : String
  statusFilter : String
  categoryFilter : String
  frequencyFilter : String
  deriving DecidableEq, Repr

/-- `needle` occurs at the head of `hay` (character lists). -/
def charsHead : List Char → List Char → Bool
  | [], _ => true
  | _ :: _, [] => false
  | n :: ns, h :: hs => n == h && charsHead ns hs

/-- `needle` occurs somewhere in `hay` (character lists); JavaScript
`String.prototype.includes` on the underlying character sequences. -/
def charsContains : List Char → List Char → Bool
  | [], needle => charsHead needle []
  | h :: hs, needle => charsHead needle (h :: hs) || charsContains hs needle

/-- Characters of `s`, lowercased (`toLowerCase`; ASCII model of the
JavaScript case fold, which suffices for the item vocabulary). -/
def lowerChars (s : String) : List Char :=
  s.toList.map Char.toLower

/-- JavaScript `hay.toLowerCase().includes(needle.toLowerCase())`. -/
def jsIncludesLower (hay needle : String) : Bool :=
  charsContains (lowerChars hay) (lowerChars needle)

/-- `applyFilters` from `home.tsx` lines 122-148, as a function of the
filter state and the item collection (in the source these are component
state; the function reads them and writes `filteredItems`, returned
here).  The `[...items]` copy is identity on immutable lists.  Note the
search stage tests `item.name` only. -/
def applyFilters (fs : FilterState) (items : List InventoryItem) : List InventoryItem :=
  let filtered := items
  let filtered :=
    if fs.searchQuery == "" then filtered
    else filtered.filter (fun item => jsIncludesLower item.name fs.searchQuery)
  let filtered :=
    if fs.statusFilter == "all" then filtered
    else filtered.filter (fun item => item.status == fs.statusFilter)
  let filtered :=
    if fs.categoryFilter == "all" then filtered
    else filtered.filter (fun item => item.category == fs.categoryFilter)
  let filtered :=
    if fs.frequencyFilter == "all" then filtered
    else filtered.filter (fun item => item.frequency == fs.frequencyFilter)
  filtered

/-- Modelled from the spec: the `matches(i, F)` predicate of the spec
(§4.3 "Filter recomputation") — a case-insensitive substring match of
the search text against the item's name OR its note (note comparison
skipped when the note is absent) when the search text is non-empty,
AND, for each categorical filter not set to "all", exact equality of
the corresponding field.  Kept separate from `applyFilters`, which is
the code; the two are compared below. -/
def specMatches (fs : FilterState) (item : InventoryItem) : Bool :=
  (fs.searchQuery == ""
    || jsIncludesLower item.name fs.searchQuery
    || (match item.note with
        | none => false
        | some n => jsIncludesLower n fs.searchQuery))
  && (fs.statusFilter == "all" || item.status == fs.statusFilter)
  && (fs.categoryFilter == "all" || item.category == fs.categoryFilter)
  && (fs.frequencyFilter == "all" || item.frequency == fs.frequencyFilter)

/-- A filter state with a search text and no categorical constraints. -/
def searchOnlyFS : FilterState :=
  { searchQuery := "milk", statusFilter := "all"
    categoryFilter := "all", frequencyFilter := "all" }

/-- An item whose note mentions "milk" but whose name does not. -/
def breadWithMilkNote : InventoryItem :=
  { id := "7", name := "Bread", category := "groceries", status := "in_stock"
    frequency := "weekly", note := some "serve with milk"
    createdAt := "2024-01-01", updatedAt := "2024-01-01" }

/-- The errors thrown by `ApiService.request` (`api.ts` lines 29-60),
each carrying its `Error` message. -/
inductive ApiError where
  | unauthorized (msg : String)
  | forbidden (msg : String)
  | serverError (msg : String)
  | requestFailed (msg : String)
  deriving DecidableEq, Repr

/-- The two persisted storage slots: `pantrypal_auth_token` and
`pantrypal_user` (`API_CONFIG.TOKEN_KEY` / `USER_KEY`). -/
structure Storage where
  token : Option String
  user : Option String
  deriving DecidableEq, Repr

/-- The browser-visible state `request` can mutate: the two storage
keys and `window.location.href`. -/
structure BrowserState where
  storage : Storage
  location : String
  deriving DecidableEq, Repr

/-- The response envelope `ApiResponse<T>` of `api-config.ts`. -/
structure ApiEnvelope (T : Type) where
  success : Bool
  data : Option T := none
  message : Option String := none
  deriving DecidableEq, Repr

/-- An HTTP response as `request` consumes it: the status code and the
parsed JSON envelope.  `fetch` exposes `response.ok` as a derived
field, modelled by `respOk` below. -/
structure HttpResponse (T : Type) where
  status : Nat
  body : ApiEnvelope T
  deriving DecidableEq, Repr

/-- `Response.ok` of the fetch API: status in the range 200-299. -/
def respOk (status : Nat) : Bool :=
  200 ≤ status && status ≤ 299

/-- JavaScript `s || fallback` on an optional string: the fallback is
used when the string is absent or empty (falsy). -/
def jsOrElse (s : Option String) (fallback : String) : String :=
  match s with
  | none => fallback
  | some m => if m == "" then fallback else m

/-- `ApiService.clearAuth` (`api.ts` lines 74-77): remove both storage
keys. -/
def clearAuth (st : BrowserState) : BrowserState :=
  { st with storage := { token := none, user := none } }

/-- The response-handling part of `ApiService.request` (`api.ts` lines
29-60), as a function of the browser state and the received response;
the endpoint is carried only for the error log, as in the source.
Returns the updated browser state together with either the thrown
error or the returned payload `data.data` (absent when the envelope
has no `data` field, as `data.data as T` is then `undefined`).  The
catch clause logs and re-throws, leaving outcomes unchanged. -/
def request {T : Type} (st : BrowserState) (endpoint : String)
    (resp : HttpResponse T) : BrowserState × Except ApiError (Option T) :=
  let _ := endpoint
  if resp.status == 401 then
    ({ clearAuth st with location := "/auth" },
      Except.error (ApiError.unauthorized "Unauthorized. Please login again."))
  else if resp.status == 403 then
    (st, Except.error
      (ApiError.forbidden "You don't have permission to access this resource."))
  else if 500 ≤ resp.status then
    (st, Except.error (ApiError.serverError "Server error. Please try again later."))
  else if !(respOk resp.status) then
    (st, Except.error
      (ApiError.requestFailed (jsOrElse resp.body.message "An error occurred")))
  else
    (st, Except.ok resp.body.data)

/-- The optional `filters` argument of `ApiService.getItems` (`api.ts`
lines 180-184): three optional string fields. -/
structure ItemFilters where
  status : Option String := none
  category : Option String := none
  frequency : Option String := none
  deriving DecidableEq, Repr

/-- `Object.entries(filters)`: the present fields, in declaration
order, as key/value pairs. -/
def filtersEntries (f : ItemFilters) : List (String × String) :=
  (match f.status with | some v => [("status", v)] | none => [])
    ++ (match f.category with | some v => [("category", v)] | none => [])
    ++ (match f.frequency with | some v => [("frequency", v)] | none => [])

/-- The query parameters `getItems` serializes (`api.ts` line 186):
`Object.entries(filters).filter(([, v]) => v)` — the entries whose
value is truthy, i.e. a non-empty string. -/
def getItemsQuery (f : ItemFilters) : List (String × String) :=
  (filtersEntries f).filter (fun p => p.2 != "")

/-- A toast notification as raised by `useToast`; `variant` is
`"destructive"` for errors and `"default"` otherwise. -/
structure Toast where
  title : String
  description : String
  variant : String := "default"
  deriving DecidableEq, Repr

/-- The success toast of a mutation handler. -/
def successToast (description : String) : Toast :=
  { title := "Success", description := description }

/-- The destructive error toast of a mutation handler. -/
def errorToast (description : String) : Toast :=
  { title := "Error", description := description, variant := "destructive" }

/-- A fetched JSON value bound for the `items` state: either an array
of items or some non-array value (`null`, an object, ...).  The
TypeScript annotation promises an array, but nothing checks it at
runtime, so the state can actually hold a non-array. -/
inductive FetchedItems where
  | arr (items : List InventoryItem)
  | notArr
  deriving DecidableEq, Repr

/-- Outcome of `loadItems` (`home.tsx` lines 86-106) as it affects the
`items` state, the toasts, and `isLoading`. -/
structure LoadResult where
  items : FetchedItems
  toasts : List Toast
  isLoading : Bool
  deriving DecidableEq, Repr

/-- `loadItems`: on a resolved fetch, `setItems(data)` stores the
fetched value as-is (no array check); on a rejected fetch, an error
toast is raised and `items` is left unchanged; `finally` clears
`isLoading`. -/
def loadItems (prev : FetchedItems)
    (outcome : Except ApiError FetchedItems) : LoadResult :=
  match outcome with
  | Except.ok data => { items := data, toasts := [], isLoading := false }
  | Except.error _ =>
      { items := prev
        toasts := [errorToast "Failed to load inventory items"]
        isLoading := false }

/-- The `[...items]` spread that opens `applyFilters`: succeeds on an
array, throws a `TypeError` (modelled as `none`) on a non-array. -/
def spreadItems : FetchedItems → Option (List InventoryItem)
  | FetchedItems.arr items => some items
  | FetchedItems.notArr => none

/-- An item draft as submitted to `handleAddItem`: the item fields
minus the server-assigned `id`, `createdAt`, `updatedAt`. -/
structure ItemDraft where
  name : String
  category : String
  status : String
  frequency : String
  price : Option Int := none
  note : Option String := none
  needBy : Option String := none
  deriving DecidableEq, Repr

/-- Outcome of a mutation handler as it affects the `items` state and
the toasts; `apiCalls` counts the service calls the handler issued. -/
structure MutationResult where
  items : List InventoryItem
  toasts : List Toast
  apiCalls : Nat
  deriving DecidableEq, Repr

/-- `handleAddItem` (`home.tsx` lines 150-167): one `createItem` call
with the draft; on success prepend the server record `created` to the
previous collection; on error raise a destructive toast and leave the
collection alone.  (Dialog/editing state, also reset on success, is
not consulted by any claim and is omitted.) -/
def handleAddItem (draft : ItemDraft) (prev : List InventoryItem)
    (outcome : Except ApiError InventoryItem) : MutationResult :=
  let _ := draft
  match outcome with
  | Except.ok created =>
      { items := created :: prev
        toasts := [successToast "Item added to inventory"]
        apiCalls := 1 }
  | Except.error _ =>
      { items := prev
        toasts := [errorToast "Failed to add item"]
        apiCalls := 1 }

/-- `handleEditItem` (`home.tsx` lines 169-188): bail out with no call
when no item is being edited; otherwise one `updateItem` call; on
success replace by the id of the server record `updated`; on error
raise a destructive toast and leave the collection alone. -/
def handleEditItem (editingItem : Option InventoryItem)
    (prev : List InventoryItem)
    (outcome : Except ApiError InventoryItem) : MutationResult :=
  match editingItem with
  | none => { items := prev, toasts := [], apiCalls := 0 }
  | some _ =>
      match outcome with
      | Except.ok updated =>
          { items := prev.map (fun item => if item.id == updated.id then updated else item)
            toasts := [successToast "Item updated"]
            apiCalls := 1 }
      | Except.error _ =>
          { items := prev
            toasts := [errorToast "Failed to update item"]
            apiCalls := 1 }

/-- `handleDeleteItem` (`home.tsx` lines 190-207): bail out with no
call unless the user confirmed; otherwise one `deleteItem` call; on
success drop the items whose id matches; on error raise a destructive
toast and leave the collection alone. -/
def handleDeleteItem (id : String) (confirmed : Bool)
    (prev : List InventoryItem)
    (outcome : Except ApiError String) : MutationResult :=
  if confirmed then
    match outcome with
    | Except.ok _ =>
        { items := prev.filter (fun item => item.id != id)
          toasts := [successToast "Item deleted"]
          apiCalls := 1 }
    | Except.error _ =>
        { items := prev
          toasts := [errorToast "Failed to delete item"]
          apiCalls := 1 }
  else { items := prev, toasts := [], apiCalls := 0 }

/-- `handleStatusUpdate` (`home.tsx` lines 209-224): one
`updateItemStatus` call; on success replace by the id of the server
record `updated`; on error raise a destructive toast and leave the
collection alone. -/
def handleStatusUpdate (id : String) (status : String)
    (prev : List InventoryItem)
    (outcome : Except ApiError InventoryItem) : MutationResult :=
  let _ := id
  match outcome with
  | Except.ok updated =>
      { items := prev.map (fun item => if item.id == updated.id then updated else item)
        toasts := [successToast ("Item status updated to " ++ status)]
        apiCalls := 1 }
  | Except.error _ =>
      { items := prev
        toasts := [errorToast "Failed to update status"]
        apiCalls := 1 }

/-- Sample item "Milk" (id "1"). -/
def milkItem : InventoryItem :=
  { id := "1", name := "Milk", category := "groceries", status := "low"
    frequency := "daily", createdAt := "2024-01-01", updatedAt := "2024-01-01" }

/-- Sample item "Sugar" (id "2"). -/
def sugarItem : InventoryItem :=
  { id := "2", name := "Sugar", category := "groceries", status := "in_stock"
    frequency := "monthly", createdAt := "2024-01-01", updatedAt := "2024-01-01" }

/-- The server record for "Milk" after a status update. -/
def milkItemOut : InventoryItem :=
  { milkItem with status := "out_of_stock", updatedAt := "2024-01-02" }

/-- A browser state holding a stored token and a cached user. -/
def loggedInState : BrowserState :=
  { storage := { token := some "tok-abc", user := some "cached-user-json" }
    location := "/" }

/- Helper lemmas about replace-by-id and remove-by-id on lists whose
mapped ids are without duplicates. -/

theorem map_replace_of_not_mem (R : InventoryItem) (l : List InventoryItem)
    (h : R.id ∉ l.map InventoryItem.id) :
    l.map (fun it => if it.id == R.id then R else it) = l := by
  induction l with
  | nil => rfl
  | cons a l ih =>
    simp only [List.map_cons, List.mem_cons, not_or] at h
    obtain ⟨h1, h2⟩ := h
    have hcond : (a.id == R.id) = false := by
      simp only [beq_eq_false_iff_ne, ne_eq]
      exact fun hh => h1 hh.symm
    simp only [List.map_cons, hcond, Bool.false_eq_true, if_false, ih h2]

theorem filter_id_eq_nil (i : String) (l : List InventoryItem)
    (h : i ∉ l.map InventoryItem.id) :
    l.filter (fun it => it.id == i) = [] := by
  rw [List.filter_eq_nil_iff]
  intro a ha
  simp only [beq_iff_eq]
  intro hh
  exact h (hh ▸ List.mem_map_of_mem InventoryItem.id ha)

theorem filter_replace_eq (R : InventoryItem) (l : List InventoryItem)
    (hnd : (l.map InventoryItem.id).Nodup)
    (hmem : R.id ∈ l.map InventoryItem.id) :
    (l.map (fun it => if it.id == R.id then R else it)).filter
      (fun it => it.id == R.id) = [R] := by
  induction l with
  | nil => simp at hmem
  | cons a l ih =>
    simp only [List.map_cons, List.nodup_cons] at hnd
    obtain ⟨hna, hnd2⟩ := hnd
    by_cases h : a.id = R.id
    · have hni : R.id ∉ l.map InventoryItem.id := h ▸ hna
      have hcond : (a.id == R.id) = true := by simp [h]
      simp only [List.map_cons, hcond, if_true, map_replace_of_not_mem R l hni]
      rw [List.filter_cons]
      simp only [beq_self_eq_true, if_true, filter_id_eq_nil R.id l hni]
    · have hmem2 : R.id ∈ l.map InventoryItem.id := by
        rcases List.mem_cons.mp hmem with h1 | h2
        · exact absurd h1.symm h
        · exact h2
      have hcond : (a.id == R.id) = false := by
        simp only [beq_eq_false_iff_ne, ne_eq]; exact h
      simp only [List.map_cons, hcond, Bool.false_eq_true, if_false]
      rw [List.filter_cons]
      simp only [hcond, Bool.false_eq_true, if_false]
      exact ih hnd2 hmem2

theorem forall2_replace (R : InventoryItem) (l : List InventoryItem) :
    List.Forall₂
      (fun a b => (a.id = R.id → b = R) ∧ (a.id ≠ R.id → b = a)) l
      (l.map (fun it => if it.id == R.id then R else it)) := by
  induction l with
  | nil => exact List.Forall₂.nil
  | cons a l ih =>
    refine List.Forall₂.cons ⟨fun h => ?_, fun h => ?_⟩ ih
    · simp [h]
    · have hcond : (a.id == R.id) = false := by
        simp only [beq_eq_false_iff_ne, ne_eq]; exact h
      simp [hcond]

theorem filter_ne_eq_self (i : String) (l : List InventoryItem)
    (h : i ∉ l.map InventoryItem.id) :
    l.filter (fun it => it.id != i) = l := by
  rw [List.filter_eq_self]
  intro a ha
  simp only [bne_iff_ne, ne_eq]
  intro hh
  exact h (hh ▸ List.mem_map_of_mem InventoryItem.id ha)

theorem length_filter_ne (i : String) (l : List InventoryItem)
    (hnd : (l.map InventoryItem.id).Nodup)
    (hmem : i ∈ l.map InventoryItem.id) :
    (l.filter (fun it => it.id != i)).length + 1 = l.length := by
  induction l with
  | nil => simp at hmem
  | cons a l ih =>
    simp only [List.map_cons, List.nodup_cons] at hnd
    obtain ⟨hna, hnd2⟩ := hnd
    by_cases h : a.id = i
    · have hni : i ∉ l.map InventoryItem.id := h ▸ hna
      have hcond : (a.id != i) = false := by simp [h]
      rw [List.filter_cons]
      simp only [hcond, Bool.false_eq_true, if_false, filter_ne_eq_self i l hni,
        List.length_cons]
    · have hmem2 : i ∈ l.map InventoryItem.id := by
        rcases List.mem_cons.mp hmem with h1 | h2
        · exact absurd h1.symm h
        · exact h2
      have hcond : (a.id != i) = true := by simp [bne_iff_ne]; exact h
      rw [List.filter_cons]
      simp only [hcond, if_true, List.length_cons]
      rw [← ih hnd2 hmem2]

/-- C1: the claim says the visible list is exactly the items matching
the spec's `matches` predicate, whose search clause tests the name OR
the note.  The code's `applyFilters` tests only the name: on a
one-item collection whose note contains the search text "milk" while
the name does not, with every categorical filter at "all", the code
yields the empty list even though the claimed predicate matches the
item (so the claimed visible list is the whole collection). -/
theorem c1_search_ignores_note_at_failing_input :
    applyFilters searchOnlyFS [breadWithMilkNote] = []
      ∧ specMatches searchOnlyFS breadWithMilkNote = true
      ∧ List.filter (specMatches searchOnlyFS) [breadWithMilkNote]
          = [breadWithMilkNote] := by
  refine ⟨by decide, by decide, by decide⟩

/-- C2: for every endpoint and every response with HTTP status 401,
whatever the envelope says, the request wrapper clears both storage
keys (token and cached user), sets the location to "/auth", and throws
the Unauthorized error — this branch runs before any other response
handling. -/
theorem c2_unauthorized_clears_auth_and_redirects {T : Type}
    (st : BrowserState) (endpoint : String) (resp : HttpResponse T)
    (h401 : resp.status = 401) :
    request st endpoint resp =
      ({ storage := { token := none, user := none }, location := "/auth" },
        Except.error (ApiError.unauthorized "Unauthorized. Please login again.")) := by
  simp [request, clearAuth, h401]

/-- Witness for C2: a concrete 401 response against a logged-in
browser state, on the `/items` endpoint. -/
theorem c2_witness :
    request loggedInState "/items"
        ({ status := 401, body := { success := false } } : HttpResponse Nat) =
      ({ storage := { token := none, user := none }, location := "/auth" },
        Except.error (ApiError.unauthorized "Unauthorized. Please login again.")) :=
  c2_unauthorized_clears_auth_and_redirects loggedInState "/items"
    { status := 401, body := { success := false } } rfl

/-- C3: for each of the four mutation handlers, when the API call
throws, the item collection is returned unchanged, exactly one
destructive (user-visible error) toast is raised, and exactly one API
call was made — no retry. -/
theorem c3_mutation_failure_policy (draft : ItemDraft)
    (prev : List InventoryItem) (e : ApiError) (edit : InventoryItem)
    (id status : String) :
    handleAddItem draft prev (Except.error e) =
        { items := prev, toasts := [errorToast "Failed to add item"], apiCalls := 1 }
      ∧ handleEditItem (some edit) prev (Except.error e) =
        { items := prev, toasts := [errorToast "Failed to update item"], apiCalls := 1 }
      ∧ handleDeleteItem id true prev (Except.error e) =
        { items := prev, toasts := [errorToast "Failed to delete item"], apiCalls := 1 }
      ∧ handleStatusUpdate id status prev (Except.error e) =
        { items := prev, toasts := [errorToast "Failed to update status"], apiCalls := 1 } :=
  ⟨rfl, rfl, rfl, rfl⟩

/-- C4: when a create with draft `draft` succeeds and the server
returns the canonical record `created`, the new collection is exactly
`created` prepended to the old one: the server record (not the draft)
sits at index 0 and every previous element follows, shifted by one. -/
theorem c4_create_prepends_server_record (draft : ItemDraft)
    (prev : List InventoryItem) (created : InventoryItem) :
    (handleAddItem draft prev (Except.ok created)).items = created :: prev
      ∧ (handleAddItem draft prev (Except.ok created)).items.head? = some created
      ∧ (handleAddItem draft prev (Except.ok created)).items.tail = prev :=
  ⟨rfl, rfl, rfl⟩

/-- C5: on a collection whose ids are distinct and contain `id`, after
a full update (edit handler) or a status-only update succeeds with
server record `R` carrying that id, the collection holds exactly one
item with that id and it is `R`, and every element at a position whose
previous occupant had a different id is unchanged. -/
theorem c5_update_replaces_exactly_one (prev : List InventoryItem)
    (R edit : InventoryItem) (id reqStatus : String)
    (hnd : (prev.map InventoryItem.id).Nodup)
    (hR : R.id = id)
    (hmem : id ∈ prev.map InventoryItem.id) :
    (handleEditItem (some edit) prev (Except.ok R)).items.filter
        (fun it => it.id == id) = [R]
      ∧ List.Forall₂ (fun a b => (a.id = id → b = R) ∧ (a.id ≠ id → b = a))
          prev (handleEditItem (some edit) prev (Except.ok R)).items
      ∧ (handleStatusUpdate id reqStatus prev (Except.ok R)).items.filter
          (fun it => it.id == id) = [R]
      ∧ List.Forall₂ (fun a b => (a.id = id → b = R) ∧ (a.id ≠ id → b = a))
          prev (handleStatusUpdate id reqStatus prev (Except.ok R)).items := by
  subst hR
  have hEdit : (handleEditItem (some edit) prev (Except.ok R)).items =
      prev.map (fun it => if it.id == R.id then R else it) := rfl
  have hStatus : (handleStatusUpdate R.id reqStatus prev (Except.ok R)).items =
      prev.map (fun it => if it.id == R.id then R else it) := rfl
  rw [hEdit, hStatus]
  exact ⟨filter_replace_eq R prev hnd hmem, forall2_replace R prev,
    filter_replace_eq R prev hnd hmem, forall2_replace R prev⟩

/-- Witness for C5: editing the item of id "1" in a two-item
collection with the updated server record, and the same via the
status-only handler. -/
theorem c5_witness :
    (handleEditItem (some milkItem) [milkItem, sugarItem]
        (Except.ok milkItemOut)).items.filter (fun it => it.id == "1") = [milkItemOut]
      ∧ List.Forall₂
          (fun a b => (a.id = "1" → b = milkItemOut) ∧ (a.id ≠ "1" → b = a))
          [milkItem, sugarItem]
          (handleEditItem (some milkItem) [milkItem, sugarItem]
            (Except.ok milkItemOut)).items
      ∧ (handleStatusUpdate "1" "out_of_stock" [milkItem, sugarItem]
          (Except.ok milkItemOut)).items.filter (fun it => it.id == "1") = [milkItemOut]
      ∧ List.Forall₂
          (fun a b => (a.id = "1" → b = milkItemOut) ∧ (a.id ≠ "1" → b = a))
          [milkItem, sugarItem]
          (handleStatusUpdate "1" "out_of_stock" [milkItem, sugarItem]
            (Except.ok milkItemOut)).items :=
  c5_update_replaces_exactly_one [milkItem, sugarItem] milkItemOut milkItem
    "1" "out_of_stock" (by decide) (by decide) (by decide)

/-- C6: on a collection whose ids are distinct and contain `id`, after
a confirmed delete succeeds, no item with that id remains, the length
drops by exactly one, and every item with a different id remains. -/
theorem c6_delete_removes_exactly_matching (prev : List InventoryItem)
    (id msg : String)
    (hnd : (prev.map InventoryItem.id).Nodup)
    (hmem : id ∈ prev.map InventoryItem.id) :
    (∀ it ∈ (handleDeleteItem id true prev (Except.ok msg)).items, it.id ≠ id)
      ∧ (handleDeleteItem id true prev (Except.ok msg)).items.length + 1
          = prev.length
      ∧ (∀ it ∈ prev, it.id ≠ id →
          it ∈ (handleDeleteItem id true prev (Except.ok msg)).items) := by
  have hDel : (handleDeleteItem id true prev (Except.ok msg)).items =
      prev.filter (fun it => it.id != id) := rfl
  rw [hDel]
  refine ⟨?_, length_filter_ne id prev hnd hmem, ?_⟩
  · intro it hit
    have h := (List.mem_filter.mp hit).2
    simpa [bne_iff_ne] using h
  · intro it hit hne
    refine List.mem_filter.mpr ⟨hit, ?_⟩
    simpa [bne_iff_ne] using hne

/-- Witness for C6: deleting id "1" from a two-item collection. -/
theorem c6_witness :
    (∀ it ∈ (handleDeleteItem "1" true [milkItem, sugarItem]
        (Except.ok "Item deleted successfully")).items, it.id ≠ "1")
      ∧ (handleDeleteItem "1" true [milkItem, sugarItem]
          (Except.ok "Item deleted successfully")).items.length + 1
          = ([milkItem, sugarItem] : List InventoryItem).length
      ∧ (∀ it ∈ ([milkItem, sugarItem] : List InventoryItem), it.id ≠ "1" →
          it ∈ (handleDeleteItem "1" true [milkItem, sugarItem]
            (Except.ok "Item deleted successfully")).items) :=
  c6_delete_removes_exactly_matching [milkItem, sugarItem] "1"
    "Item deleted successfully" (by decide) (by decide)

/-- C7 counterexample: the claim says the wrapper raises RequestFailed
whenever the envelope's `success` field is false, even on a 2xx
status.  On a 200 response with `success := false` (and a server
message present) the code returns the `data` payload and raises
nothing: the `success` field is never consulted. -/
theorem c7_counterexample_success_false_returns_data :
    request loggedInState "/items"
        ({ status := 200
           body := { success := false, data := some 7, message := some "boom" } }
          : HttpResponse Nat) =
      (loggedInState, Except.ok (some 7)) := rfl

/-- C7 amended: for every response that is not 401, not 403 and below
500, the wrapper leaves the browser state unchanged and raises
RequestFailed carrying the server message (or the generic fallback
when the message is absent or empty) exactly when the HTTP status is
not in the 2xx range; otherwise it returns the envelope's data — the
envelope's `success` field plays no part. -/
theorem c7_request_failed_iff_not_2xx {T : Type} (st : BrowserState)
    (endpoint : String) (resp : HttpResponse T)
    (h1 : resp.status ≠ 401) (h2 : resp.status ≠ 403)
    (h3 : resp.status < 500) :
    request st endpoint resp =
      (st,
        if respOk resp.status then Except.ok resp.body.data
        else Except.error (ApiError.requestFailed
          (jsOrElse resp.body.message "An error occurred"))) := by
  have e1 : (resp.status == 401) = false := by simpa using h1
  have e2 : (resp.status == 403) = false := by simpa using h2
  have e3 : ¬ 500 ≤ resp.status := by omega
  simp only [request, e1, e2, e3, Bool.false_eq_true, if_false]
  by_cases h : respOk resp.status = true
  · simp [h]
  · have hf : respOk resp.status = false := by
      cases hv : respOk resp.status
      · rfl
      · exact absurd hv h
    simp [hf]

/-- Witness for C7 (amended): a 404 response with no server message
yields RequestFailed with the generic fallback. -/
theorem c7_witness :
    request loggedInState "/items/9"
        ({ status := 404, body := { success := false } } : HttpResponse Nat) =
      (loggedInState,
        if respOk 404 then Except.ok (none : Option Nat)
        else Except.error (ApiError.requestFailed
          (jsOrElse none "An error occurred"))) :=
  c7_request_failed_iff_not_2xx loggedInState "/items/9"
    { status := 404, body := { success := false } }
    (by decide) (by decide) (by decide)

/-- C8 counterexample: the claim says a filter whose value is the
sentinel "all" is omitted from the query; `getItems` keeps it — with
`filters = \x7b status: "all" \x7d` the serialized parameters are
exactly `status=all`. -/
theorem c8_counterexample_all_is_serialized :
    getItemsQuery { status := some "all" } = [("status", "all")] := rfl

/-- C8 amended: the serialized query parameters are exactly the
provided filter entries whose value is non-empty (JavaScript
truthiness); the sentinel "all" is NOT omitted — callers such as
`loadItems` are the ones that leave "all" filters out. -/
theorem c8_query_keeps_exactly_nonempty (f : ItemFilters) (k v : String) :
    (k, v) ∈ getItemsQuery f ↔ (k, v) ∈ filtersEntries f ∧ v ≠ "" := by
  simp [getItemsQuery, List.mem_filter, bne_iff_ne]

/-- C9: the claim says a fetched value that is not a sequence results
in an empty item collection without failing the render.  The code
stores the fetched value unchecked: after a load resolving with a
non-array, the `items` state is that non-array value (not the empty
list), and the `[...items]` spread that opens the next `applyFilters`
run throws instead of rendering. -/
theorem c9_nonarray_fetch_kept_and_breaks_render :
    (loadItems (FetchedItems.arr []) (Except.ok FetchedItems.notArr)).items
        = FetchedItems.notArr
      ∧ (loadItems (FetchedItems.arr []) (Except.ok FetchedItems.notArr)).items
        ≠ FetchedItems.arr []
      ∧ spreadItems
          (loadItems (FetchedItems.arr []) (Except.ok FetchedItems.notArr)).items
        = none :=
  ⟨rfl, by decide, rfl⟩

/-- Each filtering stage of `applyFilters` maps a list to itself or to
one of its filterings, hence to a sublist. -/
theorem sublist_ite_filter (c : Prop) [Decidable c] (l : List InventoryItem)
    (p : InventoryItem → Bool) :
    List.Sublist (if c then l else l.filter p) l := by
  by_cases h : c
  · rw [if_pos h]
  · rw [if_neg h]
    exact List.filter_sublist l

/-- C10: the visible list computed by `applyFilters` is a sublist of
the input collection — a subsequence preserving the relative order of
its elements, so newest-first ordering carries through to the grid. -/
theorem c10_applyFilters_sublist (fs : FilterState) (items : List InventoryItem) :
    List.Sublist (applyFilters fs items) items := by
  unfold applyFilters
  exact (sublist_ite_filter _ _ _).trans ((sublist_ite_filter _ _ _).trans
    ((sublist_ite_filter _ _ _).trans (sublist_ite_filter _ _ _)))

end PantryPal
